import Mathlib

/-!
Verification of the legislative bill lifecycle aggregation pipeline
(analysis notebook of the political-metrics repository).

The pandas pipeline is shallowly embedded as follows.

* A nullable timestamp column entry is a `RawDate`: absent (null), a
  malformed string, or a calendar date represented by its day number.
  `pd.to_datetime(col, errors = "coerce")` maps both absent and malformed
  entries to `NaT`, embedded as `parseDate : RawDate → Option ℤ`.
* `(later - earlier).dt.days.fillna(-1).astype(int)` is `dayGap`:
  the whole-day difference when both endpoints parse, and the sentinel
  `-1` when either endpoint is `NaT`.
* Python `round(x, 3)` (and pandas `.round(2)`) round half to even.
  On the exact rational `count / total` the rounded value is an integer
  multiple of `1/1000` (resp. `1/100`); we represent it by its integer
  numerator in thousandths (resp. hundredths): `rndHalfEvenN (1000 * c) t`
  stands for `round(c / t, 3)`, so the value `500` stands for `0.500`.
* numpy division of the integer count by `total = 0` emits the float
  `NaN` (with a RuntimeWarning, not an exception); a conversion-rate cell
  is therefore an `Option ℕ`, with `none` standing for `NaN`.
* The unrounded per-capita ratio `BILL_COUNT / MEMBER_COUNT` is an exact
  float quotient on small integers, embedded as `Option ℚ`; `none` is the
  `NaN` propagated by the left merge when the party has no member row.
-/

deriving instance DecidableEq for Except

namespace PoliticalMetrics

/-- one entry of a nullable timestamp column: null, an unparseable
string, or a calendar date given by its day number. -/
inductive RawDate where
  | absent : RawDate
  | malformed : RawDate
  | date : ℤ → RawDate
deriving DecidableEq

/-- `pd.to_datetime(entry, errors = "coerce")`: absent and malformed
entries both coerce to `NaT` (`none`); a date parses to its day number. -/
def parseDate : RawDate → Option ℤ
  | .absent => none
  | .malformed => none
  | .date d => some d

/-- one record of the `bill_details` dataframe: identifier, outcome
string, and the seven lifecycle timestamp columns. -/
structure BillDetail where
  BILL_ID : String
  PROC_RESULT : String
  COMMITTEE_DT : RawDate
  CMT_PRESENT_DT : RawDate
  CMT_PROC_DT : RawDate
  LAW_SUBMIT_DT : RawDate
  LAW_PRESENT_DT : RawDate
  LAW_PROC_DT : RawDate
  PROC_DT : RawDate
deriving DecidableEq

/-- `(later - earlier).dt.days.fillna(-1).astype(int)`: the subtraction
is `NaN` iff either operand is `NaT`, and `fillna` turns that into the
sentinel `-1`; otherwise it is the whole-day difference (which the code
does not clamp, so it is negative for out-of-order dates). -/
def dayGap (later earlier : RawDate) : ℤ :=
  match parseDate later, parseDate earlier with
  | some l, some e => l - e
  | _, _ => -1

/-- the seven derived duration columns of `bill_details`. -/
structure Durations where
  CMT_MEET : ℤ
  CMT_PROC : ℤ
  LAW_ : ℤ
  LAW_MEET : ℤ
  LAW_PROC : ℤ
  PROC : ℤ
  TOTAL_DT : ℤ
deriving DecidableEq

/-- the duration-column assignments of the notebook, one bill at a time:
six consecutive milestone gaps plus the total span. -/
def durations (b : BillDetail) : Durations where
  CMT_MEET := dayGap b.CMT_PRESENT_DT b.COMMITTEE_DT
  CMT_PROC := dayGap b.CMT_PROC_DT b.CMT_PRESENT_DT
  LAW_ := dayGap b.LAW_SUBMIT_DT b.CMT_PROC_DT
  LAW_MEET := dayGap b.LAW_PRESENT_DT b.LAW_SUBMIT_DT
  LAW_PROC := dayGap b.LAW_PROC_DT b.LAW_PRESENT_DT
  PROC := dayGap b.PROC_DT b.LAW_PROC_DT
  TOTAL_DT := dayGap b.PROC_DT b.COMMITTEE_DT

/-- `bill_details = bill_details[bill_details["PROC_RESULT"] != "철회"]`:
drop withdrawn bills before any duration or conversion statistics. -/
def nonWithdrawn (pop : List BillDetail) : List BillDetail :=
  pop.filter fun b => b.PROC_RESULT != "철회"

/-- nearest integer to `num / den`, ties to even: the rounding used by
Python `round` and numpy/pandas `.round` on exact rational values. -/
def rndHalfEvenN (num den : ℕ) : ℕ :=
  if 2 * (num % den) < den then num / den
  else if den < 2 * (num % den) then num / den + 1
  else if (num / den) % 2 = 0 then num / den else num / den + 1

/-- `round(count / total, 3)` in thousandths.  When `total = 0` the
numpy integer division emits the float `NaN` (not an exception), which
we embed as `none`. -/
def ratioOrNaN (count total : ℕ) : Option ℕ :=
  if total = 0 then none else some (rndHalfEvenN (1000 * count) total)

/-- the five conversion rates printed by the notebook, each in
thousandths (`some 500` stands for `0.500`, `none` for `NaN`). -/
structure ConvRates where
  cmt_meet_rate : Option ℕ
  cmt_proc_rate : Option ℕ
  law_meet_rate : Option ℕ
  law_proc_rate : Option ℕ
  proc_rate : Option ℕ
deriving DecidableEq

/-- the stage-conversion cell: filter withdrawn bills, count the bills
whose gap column differs from the sentinel, and divide each count by the
size of the filtered population, rounding to three decimals.  Note that
the first rate counts the `CMT_MEET` gap (referral to presentation), not
mere presence of `COMMITTEE_DT`, and that the `LAW_` gap is skipped. -/
def stageConversion (pop : List BillDetail) : ConvRates :=
  let bd := nonWithdrawn pop
  let total := bd.length
  { cmt_meet_rate := ratioOrNaN (bd.countP fun b => (durations b).CMT_MEET != -1) total
    cmt_proc_rate := ratioOrNaN (bd.countP fun b => (durations b).CMT_PROC != -1) total
    law_meet_rate := ratioOrNaN (bd.countP fun b => (durations b).LAW_MEET != -1) total
    law_proc_rate := ratioOrNaN (bd.countP fun b => (durations b).LAW_PROC != -1) total
    proc_rate := ratioOrNaN (bd.countP fun b => (durations b).PROC != -1) total }

/-- a timestamp column entry is present when it coerces to an actual
date rather than `NaT`. -/
def presentB (x : RawDate) : Bool :=
  (parseDate x).isSome

/-- the seven parsed timestamps of a record, in lifecycle order. -/
def parsedList (b : BillDetail) : List (Option ℤ) :=
  [parseDate b.COMMITTEE_DT, parseDate b.CMT_PRESENT_DT, parseDate b.CMT_PROC_DT,
   parseDate b.LAW_SUBMIT_DT, parseDate b.LAW_PRESENT_DT, parseDate b.LAW_PROC_DT,
   parseDate b.PROC_DT]

/-- a milestone timestamp is present only if the previous one is:
the population shape assumed by the conversion-rate monotonicity
property of the specification. -/
def prefixClosedB (b : BillDetail) : Bool :=
  (!presentB b.CMT_PRESENT_DT || presentB b.COMMITTEE_DT) &&
  (!presentB b.CMT_PROC_DT || presentB b.CMT_PRESENT_DT) &&
  (!presentB b.LAW_SUBMIT_DT || presentB b.CMT_PROC_DT) &&
  (!presentB b.LAW_PRESENT_DT || presentB b.LAW_SUBMIT_DT) &&
  (!presentB b.LAW_PROC_DT || presentB b.LAW_PRESENT_DT) &&
  (!presentB b.PROC_DT || presentB b.LAW_PROC_DT)

/-- two optional dates are in order when both are present and ordered,
or when either is missing. -/
def optLE (x y : Option ℤ) : Bool :=
  match x, y with
  | some a, some c => decide (a ≤ c)
  | _, _ => true

/-- every element is `optLE`-below all later elements. -/
def pairwiseLE : List (Option ℤ) → Bool
  | [] => true
  | x :: rest => (rest.all fun y => optLE x y) && pairwiseLE rest

/-- the data-model invariant of the specification: the timestamps of a
record, where present, are non-decreasing in lifecycle order. -/
def datesSorted (b : BillDetail) : Prop :=
  pairwiseLE (parsedList b) = true

instance (b : BillDetail) : Decidable (datesSorted b) := by
  unfold datesSorted; infer_instance

/-- behaviour the specification ascribes to one duration value `g` with
endpoint columns `L` (later) and `E` (earlier): `g` is the sentinel
exactly when an endpoint is missing, and the whole-day difference
otherwise. -/
def gapSpec (g : ℤ) (L E : RawDate) : Prop :=
  (g = -1 ↔ parseDate L = none ∨ parseDate E = none) ∧
    ∀ x ∈ parseDate E, ∀ y ∈ parseDate L, g = y - x

/-- one record of the `bills` dataframe. -/
structure Bill where
  BILL_ID : String
  BILL_NAME : String
  COMMITTEE_NAME : Option String
  STATUS : String
deriving DecidableEq

/-- the narrow accepted-outcome status set of `PASS_COUNT`. -/
def passSet : List String :=
  ["원안가결", "수정가결"]

/-- the broader resolved-outcome status set of `NEW_BILL_COUNT`. -/
def finalizedSet : List String :=
  ["원안가결", "수정가결", "수정안반영폐기", "대안반영폐기"]

/-- `BILL_COUNT` of one committee or party group. -/
def billCount (g : List Bill) : ℕ :=
  g.length

/-- `PASS_COUNT` of one group: bills whose status is in the accepted
set. -/
def passCount (g : List Bill) : ℕ :=
  g.countP fun b => passSet.contains b.STATUS

/-- `NEW_BILL_COUNT` of one group: bills whose status is in the broader
resolved set. -/
def newBillCount (g : List Bill) : ℕ :=
  g.countP fun b => finalizedSet.contains b.STATUS

/-- `PASS_RATE = (PASS_COUNT / BILL_COUNT).round(2)`, in hundredths
(the value `47` stands for `0.47`).  Groups produced by `groupby` are
never empty, so the denominator is positive in every actual call. -/
def passRate (g : List Bill) : ℕ :=
  rndHalfEvenN (100 * passCount g) (billCount g)

/-- `PROCESSED_RATE = (NEW_BILL_COUNT / BILL_COUNT).round(2)`, in
hundredths. -/
def processedRate (g : List Bill) : ℕ :=
  rndHalfEvenN (100 * newBillCount g) (billCount g)

/-- one record of the `proposer_bills` dataframe. -/
structure Proposer where
  BILL_ID : String
  PROPOSER_ID : String
  PROPOSER_TYPE : String
deriving DecidableEq

/-- one record of the member dataframe. -/
structure Member where
  MONA_CD : String
  POLY_NM : String
deriving DecidableEq

/-- the inner merge of proposers with member party affiliations on
`PROPOSER_ID = MONA_CD`. -/
def propMemberJoin (ps : List Proposer) (ms : List Member) : List (Proposer × Member) :=
  ps.flatMap fun p => (ms.filter fun m => m.MONA_CD == p.PROPOSER_ID).map fun m => (p, m)

/-- `dict(x.value_counts())`: each distinct value with its number of
occurrences (`value_counts` sorts by count, which does not affect the
dict size used downstream). -/
def valueCounts (xs : List String) : List (String × ℕ) :=
  xs.dedup.map fun s => (s, xs.count s)

/-- `", ".join(x)` over the raw joined identifier column (the duplicated
dict key in the `agg` call makes this second rule the one that wins). -/
def joinComma : List String → String
  | [] => ""
  | [s] => s
  | s :: rest => s ++ ", " ++ joinComma rest

/-- one row of the grouped co-sponsorship dataframe `bp`. -/
structure BPRow where
  BILL_ID : String
  PROPOSER_POLY_NM : List (String × ℕ)
  PROPOSER_IDS : String
deriving DecidableEq

/-- the aggregated output row of one `BILL_ID` group of the joined
proposer rows: the party tally and the comma-joined proposer
identifiers of the group. -/
def bpRow (ps : List Proposer) (ms : List Member) (bid : String) : BPRow where
  BILL_ID := bid
  PROPOSER_POLY_NM :=
    valueCounts (((propMemberJoin ps ms).filter fun r => r.1.BILL_ID == bid).map
      fun r => r.2.POLY_NM)
  PROPOSER_IDS :=
    joinComma (((propMemberJoin ps ms).filter fun r => r.1.BILL_ID == bid).map
      fun r => r.1.PROPOSER_ID)

/-- `groupby("BILL_ID").agg(...)` over the joined proposer rows: one row
per bill identifier occurring in the join. -/
def bp (ps : List Proposer) (ms : List Member) : List BPRow :=
  ((propMemberJoin ps ms).map fun r => r.1.BILL_ID).dedup.map (bpRow ps ms)

/-- `bp = bp[bp["PROPOSER_POLY_NM"].apply(lambda x: len(x) > 1)]`: keep
the bills whose proposers span more than one distinct party label. -/
def bpFiltered (ps : List Proposer) (ms : List Member) : List BPRow :=
  (bp ps ms).filter fun r => 1 < r.PROPOSER_POLY_NM.length

/-- `ana = bills[bills["BILL_ID"].isin(bp["BILL_ID"])]`: the bill records
classified as cross-party co-sponsored. -/
def ana (bills : List Bill) (ps : List Proposer) (ms : List Member) : List Bill :=
  bills.filter fun b => (bpFiltered ps ms).any fun r => r.BILL_ID == b.BILL_ID

/-- the number of distinct party-affiliation labels among the joined
proposers of one bill: the quantity the specification says classifies a
bill as cross-party co-sponsored. -/
def distinctParties (ps : List Proposer) (ms : List Member) (bid : String) : ℕ :=
  (((propMemberJoin ps ms).filter fun r => r.1.BILL_ID == bid).map fun r =>
    r.2.POLY_NM).dedup.length

/-- one row of `lead_props`: a lead-sponsor proposer row already joined
with its party affiliation. -/
structure LeadPropRow where
  BILL_ID : String
  PROPOSER_ID : String
  POLY_NM : String
deriving DecidableEq

/-- the distinct party names of `lead_props`, the group keys of the
per-party `groupby`. -/
def partyNames (lead : List LeadPropRow) : List String :=
  (lead.map fun r => r.POLY_NM).dedup

/-- the `member_ratio` headcount table: members grouped by `POLY_NM`
with the count of `MONA_CD` per group. -/
def memberCounts (ms : List Member) : List (String × ℕ) :=
  (ms.map fun m => m.POLY_NM).dedup.map fun p =>
    (p, ms.countP fun m => m.POLY_NM == p)

/-- the headcount reached through the left merge of the party table with
`member_ratio` on `POLY_NM`: `none` models the `NaN` a left merge fills
in when the party name has no member row. -/
def lookupMemberCount (ms : List Member) (p : String) : Option ℕ :=
  ((memberCounts ms).find? fun kv => kv.1 == p).map fun kv => kv.2

/-- one row of the per-party productivity dataframe `data`. -/
structure PartyRow where
  POLY_NM : String
  BILL_COUNT : ℕ
  MEMBER_COUNT : Option ℕ
  ratio : Option ℚ
deriving DecidableEq

/-- one group row of `data`: the lead-sponsored bill count of the party,
the left-merged headcount, and `RATIO = BILL_COUNT / MEMBER_COUNT`
(`NaN`, i.e. `none`, propagates from a failed headcount lookup; division
never raises and never substitutes a default headcount). -/
def partyRow (lead : List LeadPropRow) (ms : List Member) (p : String) : PartyRow :=
  let c := lead.countP fun r => r.POLY_NM == p
  let mc := lookupMemberCount ms p
  { POLY_NM := p
    BILL_COUNT := c
    MEMBER_COUNT := mc
    ratio := mc.map fun m => (c : ℚ) / m }

/-- the whole `data` dataframe: one `partyRow` per party occurring in
`lead_props`. -/
def partyData (lead : List LeadPropRow) (ms : List Member) : List PartyRow :=
  (partyNames lead).map (partyRow lead ms)

/-- one extracted bill-document record of the validation loop, with the
name of the file it came from. -/
structure DocRecord where
  fname : String
  bill_number : String
  title : String
  is_alternative : Bool
  alternative_bill_numbers : List String
deriving DecidableEq

/-- `pat` is a prefix of `text`. -/
def startsWithL (pat : List Char) : List Char → Bool :=
  fun text =>
    match pat, text with
    | [], _ => true
    | _ :: _, [] => false
    | a :: as, c :: cs => a == c && startsWithL as cs

/-- `pat` occurs as a contiguous substring of `text` (Python `in`). -/
def containsL (pat : List Char) : List Char → Bool
  | [] => pat.isEmpty
  | c :: rest => startsWithL pat (c :: rest) || containsL pat rest

/-- `text.endswith(pat)` (Python `str.endswith`). -/
def endsWithL (text pat : List Char) : Bool :=
  startsWithL pat.reverse text.reverse

/-- the alternative-bill marker searched for in titles. -/
def marker : String :=
  "(대안)"

/-- `"(대안)" in title`. -/
def containsMarker (title : String) : Bool :=
  containsL marker.data title.data

/-- `title.split("_")[0]`: the title text up to the first underscore. -/
def takeUntilUnderscore : List Char → List Char
  | [] => []
  | c :: rest => if c = '_' then [] else c :: takeUntilUnderscore rest

/-- `bill_num = data["title"].split("_")[0]`. -/
def billNum (r : DocRecord) : String :=
  ⟨takeUntilUnderscore r.title.data⟩

/-- the three `ValueError` raise sites of the validation loop. -/
inductive VErr where
  | missingFields (fname : String)
  | numberMismatch (fname : String)
  | markerInconsistent (fname : String)
deriving DecidableEq

/-- the message string carried by each raised error, as appended to the
collected error list (`error.append(str(e))`). -/
def VErr.msg : VErr → String
  | .missingFields f => "Missing required fields in " ++ f
  | .numberMismatch f => "Bill number mismatch in " ++ f
  | .markerInconsistent f => "Title contains marker but is not marked as alternative in " ++ f

/-- body of the validation loop for a single record: raise when a
required field is empty, when the declared bill number does not end the
title-derived prefix, or when the title carries the alternative marker
while the flag is false; a flagged alternative record yields its
`alter2` entry, any other valid record yields nothing. -/
def validate (r : DocRecord) : Except VErr (Option (String × List String)) :=
  let bill_num := billNum r
  if r.bill_number = "" ∨ r.title = "" then
    .error (.missingFields r.fname)
  else if endsWithL bill_num.data r.bill_number.data = false then
    .error (.numberMismatch r.fname)
  else if r.is_alternative then
    .ok (some (bill_num, r.alternative_bill_numbers))
  else if containsMarker r.title then
    .error (.markerInconsistent r.fname)
  else
    .ok none

/-- Python-dict insertion into an association list: replace in place
when the key exists, append otherwise. -/
def dictInsert (k : String) (v : List String) : List (String × List String) → List (String × List String)
  | [] => [(k, v)]
  | kv :: rest => if kv.1 = k then (k, v) :: rest else kv :: dictInsert k v rest

/-- the whole validation loop: runs every record through `validate`,
collecting `alter2` entries on success and error messages in the
`error` list, with the `try`/`except` confining each failure to its own
record. -/
def processBatch (rs : List DocRecord) : List (String × List String) × List String :=
  rs.foldl
    (fun acc r =>
      match validate r with
      | .error e => (acc.1, acc.2 ++ [e.msg])
      | .ok none => acc
      | .ok (some kv) => (dictInsert kv.1 kv.2 acc.1, acc.2))
    ([], [])

/-- the error message a record contributes, if any. -/
def recordMsg (r : DocRecord) : Option String :=
  match validate r with
  | .error e => some e.msg
  | .ok _ => none

/-- the `alter2` entries of the valid flagged-alternative records of a
batch, in order. -/
def validEntries (rs : List DocRecord) : List (String × List String) :=
  rs.filterMap fun r =>
    match validate r with
    | .ok (some kv) => some kv
    | _ => none

/-! Concrete sample records used by the closed instances below. -/

/-- a withdrawn bill-detail record. -/
def wBill : BillDetail :=
  { BILL_ID := "B3", PROC_RESULT := "철회", COMMITTEE_DT := .absent,
    CMT_PRESENT_DT := .absent, CMT_PROC_DT := .absent, LAW_SUBMIT_DT := .absent,
    LAW_PRESENT_DT := .absent, LAW_PROC_DT := .absent, PROC_DT := .absent }

/-- a fully processed bill: all seven timestamps present, spanning ten
days in total. -/
def fullBill : BillDetail :=
  { BILL_ID := "B1", PROC_RESULT := "원안가결", COMMITTEE_DT := .date 0,
    CMT_PRESENT_DT := .date 2, CMT_PROC_DT := .date 4, LAW_SUBMIT_DT := .date 5,
    LAW_PRESENT_DT := .date 6, LAW_PROC_DT := .date 8, PROC_DT := .date 10 }

/-- a bill stalled at committee: only `COMMITTEE_DT` is present. -/
def stalledBill : BillDetail :=
  { BILL_ID := "B2", PROC_RESULT := "계류", COMMITTEE_DT := .date 0,
    CMT_PRESENT_DT := .absent, CMT_PROC_DT := .absent, LAW_SUBMIT_DT := .absent,
    LAW_PRESENT_DT := .absent, LAW_PROC_DT := .absent, PROC_DT := .absent }

/-- a non-withdrawn record whose committee presentation is dated one day
before its committee referral: both endpoints present, yet the computed
gap coincides with the sentinel. -/
def backBill : BillDetail :=
  { BILL_ID := "B4", PROC_RESULT := "계류", COMMITTEE_DT := .date 1,
    CMT_PRESENT_DT := .date 0, CMT_PROC_DT := .absent, LAW_SUBMIT_DT := .absent,
    LAW_PRESENT_DT := .absent, LAW_PROC_DT := .absent, PROC_DT := .absent }

/-- a record whose milestone presence is prefix-closed but whose second
timestamp precedes its first by one day while the third is five days
later. -/
def skewBill : BillDetail :=
  { BILL_ID := "B5", PROC_RESULT := "계류", COMMITTEE_DT := .date 1,
    CMT_PRESENT_DT := .date 0, CMT_PROC_DT := .date 5, LAW_SUBMIT_DT := .absent,
    LAW_PRESENT_DT := .absent, LAW_PROC_DT := .absent, PROC_DT := .absent }

/-- a two-bill group: one accepted outright, one discarded as reflected
in an alternative. -/
def g5 : List Bill :=
  [{ BILL_ID := "B1", BILL_NAME := "n1", COMMITTEE_NAME := some "c1", STATUS := "원안가결" },
   { BILL_ID := "B2", BILL_NAME := "n2", COMMITTEE_NAME := some "c1", STATUS := "대안반영폐기" }]

/-- sample members of two different parties. -/
def m1 : Member := { MONA_CD := "M1", POLY_NM := "더불어민주당" }

/-- second sample member. -/
def m2 : Member := { MONA_CD := "M2", POLY_NM := "국민의힘" }

/-- a lead proposer row of bill `B1`. -/
def p1 : Proposer := { BILL_ID := "B1", PROPOSER_ID := "M1", PROPOSER_TYPE := "의원대표" }

/-- a co-sponsor row of bill `B1` from a member of the other party. -/
def p2 : Proposer := { BILL_ID := "B1", PROPOSER_ID := "M2", PROPOSER_TYPE := "의원공동" }

/-- the bill record of `B1`. -/
def bill1 : Bill :=
  { BILL_ID := "B1", BILL_NAME := "n", COMMITTEE_NAME := some "c", STATUS := "계류" }

/-- ten members of the same party. -/
def ms8 : List Member :=
  [⟨"m01", "가당"⟩, ⟨"m02", "가당"⟩, ⟨"m03", "가당"⟩, ⟨"m04", "가당"⟩, ⟨"m05", "가당"⟩,
   ⟨"m06", "가당"⟩, ⟨"m07", "가당"⟩, ⟨"m08", "가당"⟩, ⟨"m09", "가당"⟩, ⟨"m10", "가당"⟩]

/-- seven lead-sponsored bills of the ten-member party, plus one by a
party that has no member row at all. -/
def lead8 : List LeadPropRow :=
  [⟨"b1", "m01", "가당"⟩, ⟨"b2", "m02", "가당"⟩, ⟨"b3", "m03", "가당"⟩, ⟨"b4", "m04", "가당"⟩,
   ⟨"b5", "m05", "가당"⟩, ⟨"b6", "m06", "가당"⟩, ⟨"b7", "m07", "가당"⟩, ⟨"b8", "m99", "나당"⟩]

/-- a valid flagged-alternative document record whose title has no
alternative marker. -/
def rec10 : DocRecord :=
  { fname := "f1.json", bill_number := "2100001", title := "2100001_법률안",
    is_alternative := true, alternative_bill_numbers := ["2100002"] }

/-- an unflagged document record whose title carries the alternative
marker. -/
def rec10b : DocRecord :=
  { fname := "f2.json", bill_number := "2100003", title := "2100003_법률안(대안)",
    is_alternative := false, alternative_bill_numbers := [] }

/-! Helper lemmas shared by the claim theorems. -/

/-- counting with a weaker predicate counts at least as many elements. -/
theorem countP_le_of_imp (l : List α) (p q : α → Bool)
    (h : ∀ a ∈ l, p a = true → q a = true) : l.countP p ≤ l.countP q := by
  induction l with
  | nil => simp
  | cons a l ih =>
    have ha := h a (List.mem_cons_self a l)
    have ihl := ih fun x hx => h x (List.mem_cons_of_mem a hx)
    simp only [List.countP_cons]
    by_cases hp : p a = true
    · simp [hp, ha hp]
      omega
    · have hp2 : p a = false := by revert hp; cases p a <;> simp
      by_cases hq : q a = true
      · simp [hp2, hq]
        omega
      · have hq2 : q a = false := by revert hq; cases q a <;> simp
        simp [hp2, hq2]
        omega

/-- half-even rounding of `num / den` lies between the floor and the
floor plus one. -/
theorem rndHalfEvenN_bounds (num den : ℕ) :
    num / den ≤ rndHalfEvenN num den ∧ rndHalfEvenN num den ≤ num / den + 1 := by
  unfold rndHalfEvenN
  split_ifs <;> omega

/-- half-even rounding is monotone in the numerator. -/
theorem rndHalfEvenN_le (den num1 num2 : ℕ) (hden : 0 < den) (h : num1 ≤ num2) :
    rndHalfEvenN num1 den ≤ rndHalfEvenN num2 den := by
  have hdle : num1 / den ≤ num2 / den := Nat.div_le_div_right h
  rcases Nat.lt_or_ge (num1 / den) (num2 / den) with hf | hf
  · calc rndHalfEvenN num1 den ≤ num1 / den + 1 := (rndHalfEvenN_bounds num1 den).2
      _ ≤ num2 / den := hf
      _ ≤ rndHalfEvenN num2 den := (rndHalfEvenN_bounds num2 den).1
  · have heq : num1 / den = num2 / den := Nat.le_antisymm hdle hf
    have e1 := Nat.div_add_mod num1 den
    have e2 := Nat.div_add_mod num2 den
    have hr : num1 % den ≤ num2 % den := by
      rw [← e1, ← e2, heq] at h
      exact Nat.le_of_add_le_add_left h
    unfold rndHalfEvenN
    rw [heq]
    set f := num2 / den
    set r1 := num1 % den
    set r2 := num2 % den
    split_ifs <;> omega

/-- the duration column obeys the specification shape at any pair of
ordered-or-missing endpoints. -/
theorem dayGap_gapSpec (L E : RawDate) (h : optLE (parseDate E) (parseDate L) = true) :
    gapSpec (dayGap L E) L E := by
  cases hE : parseDate E <;> cases hL : parseDate L <;>
    simp_all [dayGap, gapSpec, optLE, hE, hL] <;> omega

/-- the data-model ordering invariant yields the ordered-endpoint fact
for each of the seven column pairs the notebook subtracts. -/
theorem datesSorted_facts (b : BillDetail) (h : datesSorted b) :
    optLE (parseDate b.COMMITTEE_DT) (parseDate b.CMT_PRESENT_DT) = true ∧
    optLE (parseDate b.CMT_PRESENT_DT) (parseDate b.CMT_PROC_DT) = true ∧
    optLE (parseDate b.CMT_PROC_DT) (parseDate b.LAW_SUBMIT_DT) = true ∧
    optLE (parseDate b.LAW_SUBMIT_DT) (parseDate b.LAW_PRESENT_DT) = true ∧
    optLE (parseDate b.LAW_PRESENT_DT) (parseDate b.LAW_PROC_DT) = true ∧
    optLE (parseDate b.LAW_PROC_DT) (parseDate b.PROC_DT) = true ∧
    optLE (parseDate b.COMMITTEE_DT) (parseDate b.PROC_DT) = true := by
  simp only [datesSorted, pairwiseLE, parsedList, List.all_cons, List.all_nil,
    Bool.and_eq_true, Bool.and_true, and_true] at h
  tauto

/-- unpacking of the prefix-closure hypothesis into its six
implications. -/
theorem prefixClosed_facts (b : BillDetail) (h : prefixClosedB b = true) :
    (presentB b.CMT_PRESENT_DT = true → presentB b.COMMITTEE_DT = true) ∧
    (presentB b.CMT_PROC_DT = true → presentB b.CMT_PRESENT_DT = true) ∧
    (presentB b.LAW_SUBMIT_DT = true → presentB b.CMT_PROC_DT = true) ∧
    (presentB b.LAW_PRESENT_DT = true → presentB b.LAW_SUBMIT_DT = true) ∧
    (presentB b.LAW_PROC_DT = true → presentB b.LAW_PRESENT_DT = true) ∧
    (presentB b.PROC_DT = true → presentB b.LAW_PROC_DT = true) := by
  simp only [prefixClosedB, Bool.and_eq_true, Bool.or_eq_true, Bool.not_eq_true'] at h
  obtain ⟨⟨⟨⟨⟨h1, h2⟩, h3⟩, h4⟩, h5⟩, h6⟩ := h
  refine ⟨fun hx => ?_, fun hx => ?_, fun hx => ?_, fun hx => ?_, fun hx => ?_, fun hx => ?_⟩
  · exact h1.resolve_left (by simp [hx])
  · exact h2.resolve_left (by simp [hx])
  · exact h3.resolve_left (by simp [hx])
  · exact h4.resolve_left (by simp [hx])
  · exact h5.resolve_left (by simp [hx])
  · exact h6.resolve_left (by simp [hx])

/-- under ordered endpoints and downward-closed presence, a gap differs
from the sentinel exactly when its later endpoint is present. -/
theorem gap_ne_iff (L E : RawDate) (hle : optLE (parseDate E) (parseDate L) = true)
    (hcl : presentB L = true → presentB E = true) :
    ((dayGap L E != -1) = true ↔ presentB L = true) := by
  cases hE : parseDate E <;> cases hL : parseDate L <;>
    simp_all [dayGap, presentB, optLE, hE, hL] <;> omega

/-! Claim C1. -/

/-- C1 counterexample: a population whose single record is withdrawn has
an empty non-withdrawn subset, and on it the Stage Conversion Aggregator
does not fail: every one of the five conversion rates is the float `NaN`
(embedded `none`) produced by the numpy division `0 / 0`, contradicting
the claim that no such input yields `NaN`. -/
theorem c1_counterexample_empty_population_yields_nan :
    nonWithdrawn [wBill] = [] ∧
    (stageConversion [wBill]).cmt_meet_rate = none ∧
    (stageConversion [wBill]).cmt_proc_rate = none ∧
    (stageConversion [wBill]).law_meet_rate = none ∧
    (stageConversion [wBill]).law_proc_rate = none ∧
    (stageConversion [wBill]).proc_rate = none := by
  decide

/-- C1 (amended): on every population whose non-withdrawn subset is
empty, the Stage Conversion Aggregator raises no error of any kind; the
five conversion-rate divisions all evaluate to the float `NaN`
(embedded `none`) — never `0` and never a finite rate. -/
theorem c1_empty_population_all_rates_nan (pop : List BillDetail)
    (h : nonWithdrawn pop = []) :
    stageConversion pop = ⟨none, none, none, none, none⟩ := by
  simp [stageConversion, h, ratioOrNaN]

/-- C1 witness: the amended theorem applied to the concrete singleton
withdrawn population. -/
theorem c1_empty_population_all_rates_nan_witness :
    stageConversion [wBill] = ⟨none, none, none, none, none⟩ :=
  c1_empty_population_all_rates_nan [wBill] (by decide)

/-! Claim C2. -/

/-- C2 counterexample: on the synthetic three-bill population (one fully
processed bill spanning ten days, one bill stalled at committee with only
`COMMITTEE_DT`, one withdrawn bill) the code's committee-referral
conversion cell — which counts the `CMT_MEET` gap, reached only by the
fully processed bill — reports `0.500` (thousandths value `500`), not the
`1.000` the claim demands. -/
theorem c2_counterexample_committee_referral_rate_is_half :
    (stageConversion [fullBill, stalledBill, wBill]).cmt_meet_rate = some 500 ∧
    (stageConversion [fullBill, stalledBill, wBill]).cmt_meet_rate ≠ some 1000 := by
  decide

/-- C2 (amended): for every synthetic population of exactly three
bill-detail records — one with all seven ordered lifecycle timestamps
present spanning ten days total, one with only `COMMITTEE_DT` present,
one withdrawn — the Stage Conversion Aggregator, over the two
non-withdrawn bills, reports committee-referral conversion `0.500`
(thousandths value `500`; the stalled bill never reaches the
`CMT_MEET` gap the cell counts) and final-disposition conversion
`0.500`. -/
theorem c2_three_bill_population_rates (A B C : BillDetail)
    (d1 d2 d3 d4 d5 d6 d7 e : ℤ)
    (hA1 : parseDate A.COMMITTEE_DT = some d1)
    (hA2 : parseDate A.CMT_PRESENT_DT = some d2)
    (hA3 : parseDate A.CMT_PROC_DT = some d3)
    (hA4 : parseDate A.LAW_SUBMIT_DT = some d4)
    (hA5 : parseDate A.LAW_PRESENT_DT = some d5)
    (hA6 : parseDate A.LAW_PROC_DT = some d6)
    (hA7 : parseDate A.PROC_DT = some d7)
    (hord : d1 ≤ d2 ∧ d2 ≤ d3 ∧ d3 ≤ d4 ∧ d4 ≤ d5 ∧ d5 ≤ d6 ∧ d6 ≤ d7)
    (hspan : d7 - d1 = 10)
    (hAnw : A.PROC_RESULT ≠ "철회")
    (hB1 : parseDate B.COMMITTEE_DT = some e)
    (hB2 : parseDate B.CMT_PRESENT_DT = none)
    (hB3 : parseDate B.CMT_PROC_DT = none)
    (hB4 : parseDate B.LAW_SUBMIT_DT = none)
    (hB5 : parseDate B.LAW_PRESENT_DT = none)
    (hB6 : parseDate B.LAW_PROC_DT = none)
    (hB7 : parseDate B.PROC_DT = none)
    (hBnw : B.PROC_RESULT ≠ "철회")
    (hCw : C.PROC_RESULT = "철회") :
    (stageConversion [A, B, C]).cmt_meet_rate = some 500 ∧
    (stageConversion [A, B, C]).proc_rate = some 500 := by
  obtain ⟨o1, o2, o3, o4, o5, o6⟩ := hord
  have ha : (A.PROC_RESULT != "철회") = true := by simp [bne_iff_ne, hAnw]
  have hb : (B.PROC_RESULT != "철회") = true := by simp [bne_iff_ne, hBnw]
  have hc : (C.PROC_RESULT != "철회") = false := by simp [hCw]
  have hfil : nonWithdrawn [A, B, C] = [A, B] := by
    simp [nonWithdrawn, List.filter_cons, ha, hb, hc]
  have hpa : ((durations A).CMT_MEET != -1) = true := by
    simp only [durations, dayGap, hA1, hA2, bne_iff_ne, ne_eq]
    omega
  have hpb : ((durations B).CMT_MEET != -1) = false := by
    simp [durations, dayGap, hB2]
  have hqa : ((durations A).PROC != -1) = true := by
    simp only [durations, dayGap, hA6, hA7, bne_iff_ne, ne_eq]
    omega
  have hqb : ((durations B).PROC != -1) = false := by
    simp [durations, dayGap, hB7]
  refine ⟨?_, ?_⟩ <;>
    simp [stageConversion, hfil, List.countP_cons, List.countP_nil, hpa, hpb, hqa, hqb,
      ratioOrNaN] <;>
    decide

/-- C2 witness: the amended theorem applied to the concrete synthetic
population (fully processed bill with days 0,2,4,5,6,8,10; stalled bill
with committee day 0; withdrawn bill). -/
theorem c2_three_bill_population_rates_witness :
    (stageConversion [fullBill, stalledBill, wBill]).cmt_meet_rate = some 500 ∧
    (stageConversion [fullBill, stalledBill, wBill]).proc_rate = some 500 :=
  c2_three_bill_population_rates fullBill stalledBill wBill 0 2 4 5 6 8 10 0
    rfl rfl rfl rfl rfl rfl rfl (by decide) (by decide) (by decide)
    rfl rfl rfl rfl rfl rfl rfl (by decide) (by decide)

/-! Claim C3. -/

/-- C3 counterexample: a non-withdrawn record whose committee referral is
dated one day after its committee presentation has both endpoints present
and parseable, yet its `CMT_MEET` gap equals the sentinel `-1` — the
whole-day difference collides with the sentinel, so the claimed
"exactly when an endpoint is absent" biconditional fails on the code. -/
theorem c3_counterexample_negative_gap_collides_with_sentinel :
    backBill.PROC_RESULT ≠ "철회" ∧
    parseDate backBill.CMT_PRESENT_DT ≠ none ∧
    parseDate backBill.COMMITTEE_DT ≠ none ∧
    (durations backBill).CMT_MEET = -1 := by
  decide

/-- C3 (amended): for every non-withdrawn bill-detail record whose
present timestamps are non-decreasing in lifecycle order (the data-model
invariant), each of the six milestone gaps and the total span equals the
sentinel `-1` exactly when either endpoint is absent or fails to parse
(malformed strings coerce to `NaT`, exactly like absent ones), and
otherwise equals the whole-day difference of the two dates; every value
is an integer by construction, never null or `NaN`. -/
theorem c3_gap_sentinel_characterisation (b : BillDetail)
    (hnw : b.PROC_RESULT ≠ "철회") (hso : datesSorted b) :
    gapSpec (durations b).CMT_MEET b.CMT_PRESENT_DT b.COMMITTEE_DT ∧
    gapSpec (durations b).CMT_PROC b.CMT_PROC_DT b.CMT_PRESENT_DT ∧
    gapSpec (durations b).LAW_ b.LAW_SUBMIT_DT b.CMT_PROC_DT ∧
    gapSpec (durations b).LAW_MEET b.LAW_PRESENT_DT b.LAW_SUBMIT_DT ∧
    gapSpec (durations b).LAW_PROC b.LAW_PROC_DT b.LAW_PRESENT_DT ∧
    gapSpec (durations b).PROC b.PROC_DT b.LAW_PROC_DT ∧
    gapSpec (durations b).TOTAL_DT b.PROC_DT b.COMMITTEE_DT := by
  obtain ⟨s1, s2, s3, s4, s5, s6, s7⟩ := datesSorted_facts b hso
  exact ⟨dayGap_gapSpec _ _ s1, dayGap_gapSpec _ _ s2, dayGap_gapSpec _ _ s3,
    dayGap_gapSpec _ _ s4, dayGap_gapSpec _ _ s5, dayGap_gapSpec _ _ s6,
    dayGap_gapSpec _ _ s7⟩

/-- C3 witness: the amended characterisation applied to the concrete
fully processed bill. -/
theorem c3_gap_sentinel_characterisation_witness :
    gapSpec (durations fullBill).CMT_MEET fullBill.CMT_PRESENT_DT fullBill.COMMITTEE_DT ∧
    gapSpec (durations fullBill).CMT_PROC fullBill.CMT_PROC_DT fullBill.CMT_PRESENT_DT ∧
    gapSpec (durations fullBill).LAW_ fullBill.LAW_SUBMIT_DT fullBill.CMT_PROC_DT ∧
    gapSpec (durations fullBill).LAW_MEET fullBill.LAW_PRESENT_DT fullBill.LAW_SUBMIT_DT ∧
    gapSpec (durations fullBill).LAW_PROC fullBill.LAW_PROC_DT fullBill.LAW_PRESENT_DT ∧
    gapSpec (durations fullBill).PROC fullBill.PROC_DT fullBill.LAW_PROC_DT ∧
    gapSpec (durations fullBill).TOTAL_DT fullBill.PROC_DT fullBill.COMMITTEE_DT :=
  c3_gap_sentinel_characterisation fullBill (by decide) (by decide)

/-! Claim C6. -/

/-- C6: for every non-withdrawn bill whose seven lifecycle timestamps
are all present and non-decreasing in lifecycle order, the `TOTAL_DT`
span is at least each of the six constituent sub-gaps. -/
theorem c6_total_span_dominates_subgaps (b : BillDetail)
    (d1 d2 d3 d4 d5 d6 d7 : ℤ)
    (h1 : parseDate b.COMMITTEE_DT = some d1)
    (h2 : parseDate b.CMT_PRESENT_DT = some d2)
    (h3 : parseDate b.CMT_PROC_DT = some d3)
    (h4 : parseDate b.LAW_SUBMIT_DT = some d4)
    (h5 : parseDate b.LAW_PRESENT_DT = some d5)
    (h6 : parseDate b.LAW_PROC_DT = some d6)
    (h7 : parseDate b.PROC_DT = some d7)
    (hord : d1 ≤ d2 ∧ d2 ≤ d3 ∧ d3 ≤ d4 ∧ d4 ≤ d5 ∧ d5 ≤ d6 ∧ d6 ≤ d7)
    (hnw : b.PROC_RESULT ≠ "철회") :
    (durations b).CMT_MEET ≤ (durations b).TOTAL_DT ∧
    (durations b).CMT_PROC ≤ (durations b).TOTAL_DT ∧
    (durations b).LAW_ ≤ (durations b).TOTAL_DT ∧
    (durations b).LAW_MEET ≤ (durations b).TOTAL_DT ∧
    (durations b).LAW_PROC ≤ (durations b).TOTAL_DT ∧
    (durations b).PROC ≤ (durations b).TOTAL_DT := by
  obtain ⟨o1, o2, o3, o4, o5, o6⟩ := hord
  simp only [durations, dayGap, h1, h2, h3, h4, h5, h6, h7]
  omega

/-! Claim C4. -/

/-- per-record chain: with prefix-closed presence and ordered dates,
each counted gap being reached implies the previous counted gap was
reached. -/
theorem counted_gap_chain (b : BillDetail) (hcl : prefixClosedB b = true)
    (hso : datesSorted b) :
    (((durations b).CMT_PROC != -1) = true → ((durations b).CMT_MEET != -1) = true) ∧
    (((durations b).LAW_MEET != -1) = true → ((durations b).CMT_PROC != -1) = true) ∧
    (((durations b).LAW_PROC != -1) = true → ((durations b).LAW_MEET != -1) = true) ∧
    (((durations b).PROC != -1) = true → ((durations b).LAW_PROC != -1) = true) := by
  obtain ⟨c1, c2, c3, c4, c5, c6⟩ := prefixClosed_facts b hcl
  obtain ⟨s1, s2, s3, s4, s5, s6, s7⟩ := datesSorted_facts b hso
  have g1 := gap_ne_iff b.CMT_PRESENT_DT b.COMMITTEE_DT s1 c1
  have g2 := gap_ne_iff b.CMT_PROC_DT b.CMT_PRESENT_DT s2 c2
  have g3 := gap_ne_iff b.LAW_PRESENT_DT b.LAW_SUBMIT_DT s4 c4
  have g4 := gap_ne_iff b.LAW_PROC_DT b.LAW_PRESENT_DT s5 c5
  have g5 := gap_ne_iff b.PROC_DT b.LAW_PROC_DT s6 c6
  refine ⟨fun h => ?_, fun h => ?_, fun h => ?_, fun h => ?_⟩
  · exact g1.mpr (c2 (g2.mp h))
  · exact g2.mpr (c3 (c4 (g3.mp h)))
  · exact g3.mpr (c5 (g4.mp h))
  · exact g4.mpr (c6 (g5.mp h))

/-- C4 counterexample: a single-record population whose milestone
presence is prefix-closed (the claim's only hypothesis) but whose second
timestamp is dated one day before the first: its `CMT_MEET` gap computes
to the sentinel while its `CMT_PROC` gap is reached, so the
committee-referral rate (`0.000`) is strictly below the
committee-disposition rate (`1.000`), refuting the claimed
non-increasing ordering. -/
theorem c4_counterexample_rates_not_antitone :
    prefixClosedB skewBill = true ∧
    (stageConversion [skewBill]).cmt_meet_rate = some 0 ∧
    (stageConversion [skewBill]).cmt_proc_rate = some 1000 := by
  decide

/-- C4 (amended): for every population of non-withdrawn bill-detail
records in which presence of a milestone implies presence of all prior
milestones and the present timestamps are non-decreasing in lifecycle
order (the data-model invariant), the five conversion rates — each
`round(reached / total, 3)` over the same non-withdrawn total, in
thousandths — are non-increasing in milestone order. -/
theorem c4_conversion_rates_antitone (pop : List BillDetail)
    (hne : nonWithdrawn pop ≠ [])
    (hcl : ∀ b ∈ nonWithdrawn pop, prefixClosedB b = true)
    (hso : ∀ b ∈ nonWithdrawn pop, datesSorted b) :
    ∃ q1 q2 q3 q4 q5 : ℕ,
      (stageConversion pop).cmt_meet_rate = some q1 ∧
      (stageConversion pop).cmt_proc_rate = some q2 ∧
      (stageConversion pop).law_meet_rate = some q3 ∧
      (stageConversion pop).law_proc_rate = some q4 ∧
      (stageConversion pop).proc_rate = some q5 ∧
      q2 ≤ q1 ∧ q3 ≤ q2 ∧ q4 ≤ q3 ∧ q5 ≤ q4 := by
  have htot : (nonWithdrawn pop).length ≠ 0 := by
    intro h0
    exact hne (List.length_eq_zero.mp h0)
  have hpos : 0 < (nonWithdrawn pop).length := Nat.pos_of_ne_zero htot
  have h21 : (nonWithdrawn pop).countP (fun b => (durations b).CMT_PROC != -1) ≤
      (nonWithdrawn pop).countP (fun b => (durations b).CMT_MEET != -1) :=
    countP_le_of_imp _ _ _ fun b hb => (counted_gap_chain b (hcl b hb) (hso b hb)).1
  have h32 : (nonWithdrawn pop).countP (fun b => (durations b).LAW_MEET != -1) ≤
      (nonWithdrawn pop).countP (fun b => (durations b).CMT_PROC != -1) :=
    countP_le_of_imp _ _ _ fun b hb => (counted_gap_chain b (hcl b hb) (hso b hb)).2.1
  have h43 : (nonWithdrawn pop).countP (fun b => (durations b).LAW_PROC != -1) ≤
      (nonWithdrawn pop).countP (fun b => (durations b).LAW_MEET != -1) :=
    countP_le_of_imp _ _ _ fun b hb => (counted_gap_chain b (hcl b hb) (hso b hb)).2.2.1
  have h54 : (nonWithdrawn pop).countP (fun b => (durations b).PROC != -1) ≤
      (nonWithdrawn pop).countP (fun b => (durations b).LAW_PROC != -1) :=
    countP_le_of_imp _ _ _ fun b hb => (counted_gap_chain b (hcl b hb) (hso b hb)).2.2.2
  refine ⟨rndHalfEvenN (1000 * (nonWithdrawn pop).countP fun b => (durations b).CMT_MEET != -1)
      (nonWithdrawn pop).length,
    rndHalfEvenN (1000 * (nonWithdrawn pop).countP fun b => (durations b).CMT_PROC != -1)
      (nonWithdrawn pop).length,
    rndHalfEvenN (1000 * (nonWithdrawn pop).countP fun b => (durations b).LAW_MEET != -1)
      (nonWithdrawn pop).length,
    rndHalfEvenN (1000 * (nonWithdrawn pop).countP fun b => (durations b).LAW_PROC != -1)
      (nonWithdrawn pop).length,
    rndHalfEvenN (1000 * (nonWithdrawn pop).countP fun b => (durations b).PROC != -1)
      (nonWithdrawn pop).length,
    ?_, ?_, ?_, ?_, ?_, ?_, ?_, ?_, ?_⟩
  · simp [stageConversion, ratioOrNaN, htot]
  · simp [stageConversion, ratioOrNaN, htot]
  · simp [stageConversion, ratioOrNaN, htot]
  · simp [stageConversion, ratioOrNaN, htot]
  · simp [stageConversion, ratioOrNaN, htot]
  · exact rndHalfEvenN_le _ _ _ hpos (by omega)
  · exact rndHalfEvenN_le _ _ _ hpos (by omega)
  · exact rndHalfEvenN_le _ _ _ hpos (by omega)
  · exact rndHalfEvenN_le _ _ _ hpos (by omega)

/-- C4 witness: the amended theorem applied to the concrete singleton
population holding the fully processed bill. -/
theorem c4_conversion_rates_antitone_witness :
    ∃ q1 q2 q3 q4 q5 : ℕ,
      (stageConversion [fullBill]).cmt_meet_rate = some q1 ∧
      (stageConversion [fullBill]).cmt_proc_rate = some q2 ∧
      (stageConversion [fullBill]).law_meet_rate = some q3 ∧
      (stageConversion [fullBill]).law_proc_rate = some q4 ∧
      (stageConversion [fullBill]).proc_rate = some q5 ∧
      q2 ≤ q1 ∧ q3 ≤ q2 ∧ q4 ≤ q3 ∧ q5 ≤ q4 :=
  c4_conversion_rates_antitone [fullBill] (by decide) (by decide) (by decide)

/-! Claim C5. -/

/-- C5: for every committee or party group with a positive bill count,
the rounded pass rate is at most the rounded finalize rate, because the
accepted-outcome status set is contained in the resolved-outcome status
set, so the pass count never exceeds the finalized count, and half-even
rounding over the common denominator preserves the inequality.  Rates
are in hundredths, the exact value of pandas `.round(2)` here. -/
theorem c5_pass_rate_le_finalize_rate (g : List Bill) (hg : 0 < billCount g) :
    passRate g ≤ processedRate g := by
  have hsub : passCount g ≤ newBillCount g := by
    refine countP_le_of_imp _ _ _ fun b _ hb => ?_
    simp only [passSet, finalizedSet, List.contains_cons, List.contains_nil,
      Bool.or_eq_true, beq_iff_eq] at hb ⊢
    tauto
  exact rndHalfEvenN_le _ _ _ hg (by omega)

/-- C5 witness: the theorem applied to the concrete two-bill group with
one accepted and one alternative-reflected-discarded bill. -/
theorem c5_pass_rate_le_finalize_rate_witness :
    passRate g5 ≤ processedRate g5 :=
  c5_pass_rate_le_finalize_rate g5 (by decide)

/-- C6 witness: the theorem applied to the concrete fully processed
bill. -/
theorem c6_total_span_dominates_subgaps_witness :
    (durations fullBill).CMT_MEET ≤ (durations fullBill).TOTAL_DT ∧
    (durations fullBill).CMT_PROC ≤ (durations fullBill).TOTAL_DT ∧
    (durations fullBill).LAW_ ≤ (durations fullBill).TOTAL_DT ∧
    (durations fullBill).LAW_MEET ≤ (durations fullBill).TOTAL_DT ∧
    (durations fullBill).LAW_PROC ≤ (durations fullBill).TOTAL_DT ∧
    (durations fullBill).PROC ≤ (durations fullBill).TOTAL_DT :=
  c6_total_span_dominates_subgaps fullBill 0 2 4 5 6 8 10
    rfl rfl rfl rfl rfl rfl rfl (by decide) (by decide)

/-! Claim C7. -/

/-- the length of a value-counts dict is the number of distinct
values. -/
theorem valueCounts_length (xs : List String) :
    (valueCounts xs).length = xs.dedup.length := by
  simp [valueCounts]

/-- the party tally of an aggregated row has one entry per distinct
party label of the group. -/
theorem bpRow_poly_length (ps : List Proposer) (ms : List Member) (bid : String) :
    (bpRow ps ms bid).PROPOSER_POLY_NM.length = distinctParties ps ms bid := by
  simp [bpRow, valueCounts, distinctParties]

/-- C7: for every input, the Co-sponsorship Joiner keeps exactly the
bill records whose identifier gathers strictly more than one distinct
party-affiliation label among the proposer rows surviving the inner join
with the member table: membership of a bill in `ana` is equivalent to
membership in `bills` together with a distinct-party count above one. -/
theorem c7_cross_party_classification (bills : List Bill) (ps : List Proposer)
    (ms : List Member) (b : Bill) :
    b ∈ ana bills ps ms ↔ b ∈ bills ∧ 1 < distinctParties ps ms b.BILL_ID := by
  unfold ana
  rw [List.mem_filter]
  constructor
  · rintro ⟨hbills, hany⟩
    refine ⟨hbills, ?_⟩
    rw [List.any_eq_true] at hany
    obtain ⟨row, hrow, heq⟩ := hany
    rw [bpFiltered, List.mem_filter] at hrow
    obtain ⟨hrowbp, hlen⟩ := hrow
    rw [bp, List.mem_map] at hrowbp
    obtain ⟨bid, hbid, rfl⟩ := hrowbp
    have hb : bid = b.BILL_ID := by simpa [bpRow] using heq
    subst hb
    have hlen2 : 1 < (bpRow ps ms b.BILL_ID).PROPOSER_POLY_NM.length := by simpa using hlen
    rwa [bpRow_poly_length] at hlen2
  · rintro ⟨hbills, hdist⟩
    refine ⟨hbills, ?_⟩
    rw [List.any_eq_true]
    refine ⟨bpRow ps ms b.BILL_ID, ?_, by simp [bpRow]⟩
    rw [bpFiltered, List.mem_filter]
    have hne : ((propMemberJoin ps ms).filter fun r => r.1.BILL_ID == b.BILL_ID) ≠ [] := by
      intro hnil
      unfold distinctParties at hdist
      rw [hnil] at hdist
      simp at hdist
    constructor
    · rw [bp, List.mem_map]
      refine ⟨b.BILL_ID, ?_, rfl⟩
      rw [List.mem_dedup]
      rcases hfe : (propMemberJoin ps ms).filter (fun r => r.1.BILL_ID == b.BILL_ID) with
        _ | ⟨row, rest⟩
      · exact absurd hfe hne
      · have hrowmem : row ∈ (propMemberJoin ps ms).filter
            (fun r => r.1.BILL_ID == b.BILL_ID) := by
          rw [hfe]
          exact List.mem_cons_self _ _
        rw [List.mem_filter] at hrowmem
        obtain ⟨hrj, hrid⟩ := hrowmem
        rw [List.mem_map]
        exact ⟨row, hrj, by simpa using hrid⟩
    · have : 1 < (bpRow ps ms b.BILL_ID).PROPOSER_POLY_NM.length := by
        rwa [bpRow_poly_length]
      simpa using this

/-- C7 witness: the classification applied to the concrete one-bill
input whose two joined proposers belong to different parties. -/
theorem c7_cross_party_classification_witness :
    bill1 ∈ ana [bill1] [p1, p2] [m1, m2] :=
  (c7_cross_party_classification [bill1] [p1, p2] [m1, m2] bill1).mpr
    ⟨by decide, by decide⟩

/-! Claim C8. -/

/-- C8: for every party group of the per-capita computation, a missing
headcount lookup (party absent from the member table) propagates the
missing-join marker into the ratio — no division-by-zero error and no
substituted default headcount — while a successful lookup yields the
exact quotient, so a party with ten members and seven lead-sponsored
bills gets ratio exactly `7 / 10 = 0.7`. -/
theorem c8_per_capita_ratio (lead : List LeadPropRow) (ms : List Member) (p : String)
    (hp : p ∈ partyNames lead) :
    partyRow lead ms p ∈ partyData lead ms ∧
    (lookupMemberCount ms p = none → (partyRow lead ms p).ratio = none) ∧
    (∀ m, lookupMemberCount ms p = some m →
      (partyRow lead ms p).ratio = some (((partyRow lead ms p).BILL_COUNT : ℚ) / m)) ∧
    (lookupMemberCount ms p = some 10 → (partyRow lead ms p).BILL_COUNT = 7 →
      (partyRow lead ms p).ratio = some ((7 : ℚ) / 10)) := by
  refine ⟨List.mem_map_of_mem _ hp, fun h => ?_, fun m hm => ?_, fun hm hc => ?_⟩
  · simp [partyRow, h]
  · simp [partyRow, hm]
  · simp only [partyRow] at hc ⊢
    simp only [hm, Option.map_some]
    rw [hc]
    norm_num

/-- C8 witness: the theorem applied to the concrete ten-member party
with seven lead-sponsored bills, and to the party with no member row. -/
theorem c8_per_capita_ratio_witness :
    (partyRow lead8 ms8 "가당").ratio = some ((7 : ℚ) / 10) ∧
    (partyRow lead8 ms8 "나당").ratio = none :=
  ⟨(c8_per_capita_ratio lead8 ms8 "가당" (by decide)).2.2.2 (by decide) (by decide),
    (c8_per_capita_ratio lead8 ms8 "나당" (by decide)).2.1 (by decide)⟩

/-! Claim C9. -/

/-- the fold of the validation loop over a batch, starting from an
arbitrary accumulator, splits into the per-record aggregation of the
valid records and the per-record messages of the invalid ones. -/
theorem processBatch_fold (rs : List DocRecord) (d : List (String × List String))
    (es : List String) :
    rs.foldl
      (fun acc r =>
        match validate r with
        | .error e => (acc.1, acc.2 ++ [e.msg])
        | .ok none => acc
        | .ok (some kv) => (dictInsert kv.1 kv.2 acc.1, acc.2))
      (d, es)
    = ((validEntries rs).foldl (fun dd kv => dictInsert kv.1 kv.2 dd) d,
        es ++ rs.filterMap recordMsg) := by
  induction rs generalizing d es with
  | nil => simp [validEntries]
  | cons r rs ih =>
    cases hv : validate r with
    | error e =>
      simp [List.foldl_cons, hv, validEntries, recordMsg, List.filterMap_cons, ih]
    | ok v =>
      cases v with
      | none =>
        simp [List.foldl_cons, hv, validEntries, recordMsg, List.filterMap_cons, ih]
      | some kv =>
        simp [List.foldl_cons, hv, validEntries, recordMsg, List.filterMap_cons, ih]

/-- C9: over every batch of bill-detail document records, the collected
error list is exactly the per-record error messages of the records that
fail a validation check (empty required field, bill-number prefix
mismatch, or unflagged alternative marker), in batch order, and the
`alter2` aggregation is built from the valid flagged-alternative records
alone — each record's outcome depends on that record only, so an invalid
record is reported and excluded without affecting any other record. -/
theorem c9_batch_error_isolation (rs : List DocRecord) :
    (processBatch rs).2 = rs.filterMap recordMsg ∧
    (processBatch rs).1 =
      (validEntries rs).foldl (fun d kv => dictInsert kv.1 kv.2 d) [] := by
  unfold processBatch
  rw [processBatch_fold]
  simp

/-! Claim C10. -/

/-- C10: the schema validator checks title/alternative-flag consistency
in one direction only: a record whose alternative flag is true is
accepted with no marker check at all — whatever its title contains —
once the field and prefix checks pass, while the marker-inconsistency
error is raised only for records whose flag is false and whose title
contains the `(대안)` marker. -/
theorem c10_marker_check_one_directional (r : DocRecord) :
    (r.is_alternative = true → r.bill_number ≠ "" → r.title ≠ "" →
      endsWithL (billNum r).data r.bill_number.data = true →
      validate r = .ok (some (billNum r, r.alternative_bill_numbers))) ∧
    (∀ f, validate r = .error (.markerInconsistent f) →
      r.is_alternative = false ∧ containsMarker r.title = true) := by
  constructor
  · intro ha hb ht he
    simp [validate, hb, ht, he, ha]
  · intro f hv
    unfold validate at hv
    by_cases h1 : r.bill_number = "" ∨ r.title = ""
    · rw [if_pos h1] at hv
      exact absurd hv (by simp)
    · rw [if_neg h1] at hv
      by_cases h2 : endsWithL (billNum r).data r.bill_number.data = false
      · rw [if_pos h2] at hv
        exact absurd hv (by simp)
      · rw [if_neg h2] at hv
        by_cases h3 : r.is_alternative = true
        · rw [if_pos h3] at hv
          exact absurd hv (by simp)
        · rw [if_neg h3] at hv
          by_cases h4 : containsMarker r.title = true
          · refine ⟨?_, h4⟩
            revert h3
            cases r.is_alternative <;> simp
          · rw [if_neg h4] at hv
            exact absurd hv (by simp)

/-- C10 witness: the theorem applied to a concrete valid flagged
alternative record whose title lacks the marker (accepted), and to a
concrete unflagged record whose title carries the marker (reported). -/
theorem c10_marker_check_one_directional_witness :
    validate rec10 = .ok (some (billNum rec10, rec10.alternative_bill_numbers)) ∧
    (rec10b.is_alternative = false ∧ containsMarker rec10b.title = true) :=
  ⟨(c10_marker_check_one_directional rec10).1 (by decide) (by decide) (by decide) (by decide),
    (c10_marker_check_one_directional rec10b).2 "f2.json" (by decide)⟩

end PoliticalMetrics
